import Mathlib

/-!
Verification of GitSavvy's GitHub pull-request commands
(`github/commands/pull_request.py`).

The Python module is UI glue around a small set of observable actions: git
subprocess invocations, one HTTP GET, browser openings, dialogs and status
messages.  We embed each command method as a pure Lean function from its
inputs (the pull-request object, the environment the host supplies, and an
oracle saying which git commands succeed) to the list of observable effects
it performs, in order.  A git failure raises an exception in Python, which
aborts the rest of the method; we model that by cutting the trace at the
first failing git invocation and returning a success flag.
-/

namespace GitSavvy

/-- One observable action performed by the plugin code.  `gitCmd args` is a
call of `self.git(*args)`; `checkoutRef r` is a call of
`self.checkout_ref(r)` (the git checkout of `r`); the rest are UI, network
and browser actions.  `raiseError` marks a Python exception propagating out
of the method. -/
inductive Effect where
  | gitCmd (args : List String)
  | checkoutRef (ref : String)
  | statusMessage (msg : String)
  | httpGet (url : String)
  | openBrowser (url : String)
  | messageDialog (msg : String)
  | okCancelDialog (msg : String)
  | runWindowCommand (cmd : String)
  | showQuickPanel (items : List String)
  | showInputPanel (caption : String) (initialText : String)
  | newScratchView (title : String)
  | replaceViewText (text : String)
  | raiseError (msg : String)
  deriving DecidableEq, Repr

/-- The `head.repo` object of a GitHub pull request, as the code reads it. -/
structure HeadRepo where
  clone_url : String
  deriving DecidableEq, Repr

/-- The `head` object of a GitHub pull request: remote branch and SHA. -/
structure Head where
  repo : HeadRepo
  ref : String
  sha : String
  deriving DecidableEq, Repr

/-- The fields of a pull-request JSON object that the module reads. -/
structure PullRequest where
  number : Nat
  title : String
  head : Head
  diff_url : String
  html_url : String
  deriving DecidableEq, Repr

/-- Which git invocations succeed.  `gitOk args` is the exit status of
`self.git(*args)`; `checkoutOk r` that of `self.checkout_ref(r)`.  A `false`
models the `GitSavvyError` exception the git wrapper raises on a non-zero
exit. -/
structure GitEnv where
  gitOk : List String → Bool
  checkoutOk : String → Bool

/-- Python truthiness of an optional string: `None` and `""` are falsy. -/
def truthy : Option String → Bool
  | none => false
  | some s => s != ""

/-- Arguments of the git fetch invocation both checkout paths start with:
`self.git("fetch", self.pr["head"]["repo"]["clone_url"], self.pr["head"]["ref"])`. -/
def fetchArgs (pr : PullRequest) : List String :=
  ["fetch", pr.head.repo.clone_url, pr.head.ref]

/-- Arguments of the branch-creation invocation:
`self.git("branch", branch_name, self.pr["head"]["sha"])`. -/
def branchArgs (pr : PullRequest) (branch_name : String) : List String :=
  ["branch", branch_name, pr.head.sha]

/-- `GsPullRequestCommand.fetch_and_checkout_pr(branch_name=None)`: fetch the
PR head, create a branch when `branch_name` is truthy, then check out
`branch_name or sha`.  Returns the effect trace and whether the method ran
to completion. -/
def fetch_and_checkout_pr (env : GitEnv) (pr : PullRequest)
    (branch_name : Option String) : List Effect × Bool :=
  let pre := [Effect.statusMessage "Fetching PR commit...",
              Effect.gitCmd (fetchArgs pr)]
  if env.gitOk (fetchArgs pr) = false then (pre, false) else
  let bn := branch_name.getD ""
  let mid := if truthy branch_name then
      [Effect.statusMessage "Creating local branch for PR...",
       Effect.gitCmd (branchArgs pr bn)]
    else []
  let midOk := if truthy branch_name then env.gitOk (branchArgs pr bn) else true
  if midOk = false then (pre ++ mid, false) else
  let ref := if truthy branch_name then bn else pr.head.sha
  (pre ++ mid ++ [Effect.statusMessage "Checking out PR...",
                  Effect.checkoutRef ref],
   env.checkoutOk ref)

/-- `GsPullRequestCommand.create_branch_for_pr(branch_name)`: fetch the PR
head, then create the branch at the head SHA; no checkout. -/
def create_branch_for_pr (env : GitEnv) (pr : PullRequest)
    (branch_name : String) : List Effect × Bool :=
  let pre := [Effect.statusMessage "Fetching PR commit...",
              Effect.gitCmd (fetchArgs pr)]
  if env.gitOk (fetchArgs pr) = false then (pre, false) else
  (pre ++ [Effect.statusMessage "Creating local branch for PR...",
           Effect.gitCmd (branchArgs pr branch_name)],
   env.gitOk (branchArgs pr branch_name))

/-- The three local-checkout intents a user can pick for a selected PR. -/
inductive LocalCheckoutIntent where
  | detachedHead
  | newBranch (name : String)
  | newBranchNoCheckout (name : String)
  deriving DecidableEq, Repr

/-- Materializing a PR with an intent, exactly as `on_select_action`
dispatches: index 0 calls `fetch_and_checkout_pr()` with no branch name,
index 1 calls `fetch_and_checkout_pr(name)` with the name entered in the
input panel, index 2 calls `create_branch_for_pr(name)`. -/
def materialize (env : GitEnv) (pr : PullRequest) :
    LocalCheckoutIntent → List Effect × Bool
  | .detachedHead => fetch_and_checkout_pr env pr none
  | .newBranch name => fetch_and_checkout_pr env pr (some name)
  | .newBranchNoCheckout name => create_branch_for_pr env pr name

/-- Effects that touch the local git repository: `self.git(...)` calls and
the checkout performed by `self.checkout_ref(...)`. -/
def isGitEffect : Effect → Bool
  | .gitCmd _ => true
  | .checkoutRef _ => true
  | _ => false

/-- The git sub-trace of an effect trace. -/
def gitEffects (t : List Effect) : List Effect :=
  t.filter isGitEffect

/-- A branch-creation git invocation. -/
def isBranchCmd : Effect → Bool
  | .gitCmd args => args.head? == some "branch"
  | _ => false

/-- A checkout invocation. -/
def isCheckoutEffect : Effect → Bool
  | .checkoutRef _ => true
  | _ => false

/-- An HTTP GET. -/
def isHttpGet : Effect → Bool
  | .httpGet _ => true
  | _ => false

/-- A UTF-8 continuation byte, `0x80–0xBF`. -/
def contByte (b : Nat) : Bool :=
  0x80 ≤ b && b ≤ 0xBF

/-- Strict UTF-8 decoding of a byte list, fuel-indexed; the fuel is the
length of the list, and every step consumes at least one byte.  Rejects
continuation-byte starts, overlong encodings (`0xC0`/`0xC1`, and the
restricted ranges after `0xE0`/`0xF0`), surrogate encodings (restricted
range after `0xED`) and code points above `U+10FFFF` (lead bytes above
`0xF4`, restricted range after `0xF4`), exactly as Python's strict
`bytes.decode("utf-8")` does. -/
def utf8DecodeGo : Nat → List Nat → Option (List Char)
  | _, [] => some []
  | 0, _ :: _ => none
  | fuel + 1, b :: bs =>
    if b ≤ 0x7F then
      (utf8DecodeGo fuel bs).map (fun cs => Char.ofNat b :: cs)
    else if 0xC2 ≤ b && b ≤ 0xDF then
      match bs with
      | c1 :: bs1 =>
        if contByte c1 then
          (utf8DecodeGo fuel bs1).map
            (fun cs => Char.ofNat ((b - 0xC0) * 0x40 + (c1 - 0x80)) :: cs)
        else none
      | [] => none
    else if 0xE0 ≤ b && b ≤ 0xEF then
      match bs with
      | c1 :: c2 :: bs2 =>
        let lo := if b = 0xE0 then 0xA0 else 0x80
        let hi := if b = 0xED then 0x9F else 0xBF
        if lo ≤ c1 && c1 ≤ hi && contByte c2 then
          (utf8DecodeGo fuel bs2).map (fun cs =>
            Char.ofNat ((b - 0xE0) * 0x1000 + (c1 - 0x80) * 0x40 + (c2 - 0x80)) :: cs)
        else none
      | _ => none
    else if 0xF0 ≤ b && b ≤ 0xF4 then
      match bs with
      | c1 :: c2 :: c3 :: bs3 =>
        let lo := if b = 0xF0 then 0x90 else 0x80
        let hi := if b = 0xF4 then 0x8F else 0xBF
        if lo ≤ c1 && c1 ≤ hi && contByte c2 && contByte c3 then
          (utf8DecodeGo fuel bs3).map (fun cs =>
            Char.ofNat ((b - 0xF0) * 0x40000 + (c1 - 0x80) * 0x1000 +
              (c2 - 0x80) * 0x40 + (c3 - 0x80)) :: cs)
        else none
      | _ => none
    else none

/-- `payload.decode("utf-8")`: strict UTF-8 decoding of the HTTP response
body, `none` when Python would raise `UnicodeDecodeError`. -/
def utf8Decode (bs : List Nat) : Option String :=
  (utf8DecodeGo bs.length bs).map fun cs => String.mk cs

/-- `GsPullRequestCommand.view_diff_for_pr`: one GET against the PR's
`diff_url`; on success a scratch view is opened and filled with the body
decoded as UTF-8.  `resp` is the outcome of `interwebs.get_url` — `error`
models the exception a failed request raises, `ok payload` the response
body bytes. -/
def view_diff_for_pr (pr : PullRequest) (resp : Except String (List Nat)) :
    List Effect :=
  Effect.httpGet pr.diff_url ::
  match resp with
  | .error e => [Effect.raiseError e]
  | .ok payload =>
    Effect.newScratchView ("PR #" ++ toString pr.number) ::
    match utf8Decode payload with
    | some text => [Effect.replaceViewText text]
    | none => [Effect.raiseError "UnicodeDecodeError"]

/-- `GsPullRequestCommand.open_pr_in_browser`. -/
def open_pr_in_browser (pr : PullRequest) : List Effect :=
  [Effect.openBrowser pr.html_url]

/-- The five actions offered for a selected PR. -/
def quickPanelItems : List String :=
  ["Checkout as detached HEAD.",
   "Checkout as local branch.",
   "Create local branch, but do not checkout.",
   "View diff.",
   "Open in browser."]

/-- `GsPullRequestCommand.on_select_pr`: a falsy (cancelled) selection
returns immediately; otherwise the action quick panel is shown. -/
def on_select_pr (pr : Option PullRequest) : List Effect :=
  match pr with
  | none => []
  | some _ => [Effect.showQuickPanel quickPanelItems]

/-- Environment for `on_select_action`: the git oracle plus the outcome of
the diff request the "View diff" action would make. -/
structure PrCommandEnv where
  git : GitEnv
  diffResponse : Except String (List Nat)

/-- The input-panel caption `"Enter branch name for PR {}:"`. -/
def branchNamePrompt (pr : PullRequest) : String :=
  "Enter branch name for PR " ++ toString pr.number ++ ":"

/-- The input-panel initial text `"pull-request-{}"`. -/
def defaultBranchName (pr : PullRequest) : String :=
  "pull-request-" ++ toString pr.number

/-- `GsPullRequestCommand.on_select_action`: index `-1` (cancelled panel)
returns immediately; indices 1 and 2 only show an input panel (the git work
happens in the panel's callback); 0, 3 and 4 act directly. -/
def on_select_action (env : PrCommandEnv) (pr : PullRequest) (idx : Int) :
    List Effect :=
  if idx = -1 then []
  else if idx = 0 then (fetch_and_checkout_pr env.git pr none).1
  else if idx = 1 then
    [Effect.showInputPanel (branchNamePrompt pr) (defaultBranchName pr)]
  else if idx = 2 then
    [Effect.showInputPanel (branchNamePrompt pr) (defaultBranchName pr)]
  else if idx = 3 then view_diff_for_pr pr env.diffResponse
  else if idx = 4 then open_pr_in_browser pr
  else []

/-- `GsPullRequestCommand.run_async` after the pull-request list has been
obtained.  Modelled from the spec: `github.get_pull_requests` and the
paginated panel are not under `src/`; the spec has the listing surface
`RemoteFetchError` as a typed failure (here `Except.error`, which in Python
is an exception aborting the method) distinct from an empty list, and the
panel's `is_empty()` hold exactly when the listed sequence is empty. -/
def pull_request_list_run_async (fetched : Except String (List PullRequest)) :
    List Effect :=
  match fetched with
  | .error e => [Effect.raiseError e]
  | .ok prs =>
    Effect.statusMessage "Getting pull requests..." ::
    if prs.isEmpty then [Effect.statusMessage "No pull requests found."] else []

/-- A parsed remote, the fields of `github.parse_remote`'s result the module
reads. -/
structure RemoteDescriptor where
  host : String
  owner : String
  repo : String
  deriving DecidableEq, Repr

/-- Modelled from the spec: `github.parse_remote` is not under `src/`; per
the spec a `RemoteDescriptor` carries the base remote URL
`https://host/owner/repo` derived deterministically from its parts. -/
def RemoteDescriptor.url (d : RemoteDescriptor) : String :=
  "https://" ++ d.host ++ "/" ++ d.owner ++ "/" ++ d.repo

/-- The comparison URL built by
`GsCreatePullRequestCommand.open_comparision_in_browser`:
`"{}/compare/{}:{}...{}:{}?expand=1".format(url, base_owner, base_branch, owner, branch)`. -/
def buildCompareUrl (base : RemoteDescriptor)
    (baseBranch headOwner headBranch : String) : String :=
  base.url ++ "/compare/" ++ base.owner ++ ":" ++ baseBranch ++ "..." ++
    headOwner ++ ":" ++ headBranch ++ "?expand=1"

/-- The upstream ref of the active branch, as `get_active_remote_branch`
returns it: a remote name and a branch name. -/
structure RemoteBranchRef where
  remote : String
  name : String
  deriving DecidableEq, Repr

/-- Host-supplied state read by `GsCreatePullRequestCommand.run_async`:
the active branch's upstream (falsy when unset), the user's answer to the
push prompt, the resolvable active remote branch, the `(status, secondary)`
pair of `get_branch_status`, the parsed remotes-by-name table, and the
parsed integrated remote with its integrated branch name. -/
structure CreatePREnv where
  upstream : Option String
  okCancelAnswer : Bool
  activeRemoteBranch : Option RemoteBranchRef
  branchStatusSecondary : Option String
  remotes : String → RemoteDescriptor
  integratedRemote : RemoteDescriptor
  integratedBranchName : String

/-- The `PUSH_PROMPT` module constant. -/
def PUSH_PROMPT : String :=
  "You have not set an upstream for the active branch.  Would you like to push to a remote?"

/-- `GsCreatePullRequestCommand.open_comparision_in_browser(owner, branch)`. -/
def open_comparision_in_browser (env : CreatePREnv) (owner branch : String) :
    List Effect :=
  [Effect.openBrowser
    (buildCompareUrl env.integratedRemote env.integratedBranchName owner branch)]

/-- `GsCreatePullRequestCommand.run_async`: no upstream → push prompt (and,
on OK, delegation to the push-and-create command); undeterminable remote →
dialog; diverged branch (truthy `secondary`) → dialog; otherwise the
comparison URL is built and opened. -/
def create_pull_request_run_async (env : CreatePREnv) : List Effect :=
  if truthy env.upstream = false then
    Effect.okCancelDialog PUSH_PROMPT ::
    (if env.okCancelAnswer then
       [Effect.runWindowCommand "gs_push_and_create_pull_request"]
     else [])
  else
    match env.activeRemoteBranch with
    | none => [Effect.messageDialog "Unable to determine remote."]
    | some rb =>
      if truthy env.branchStatusSecondary then
        [Effect.messageDialog
          ("Your current branch is different from its remote counterpart. " ++
            env.branchStatusSecondary.getD "")]
      else
        open_comparision_in_browser env (env.remotes rb.remote).owner rb.name

/-- `GsPushAndCreatePullRequestCommand.do_push`.  Modelled from the spec for
the inherited part: `GsPushToBranchNameCommand.do_push` is not under `src/`
and is the delegated push operation, represented by its trace `pushTrace`
and outcome `pushOk` (a `false` models the exception a failed push raises,
which skips the rest of the method).  After the push the method runs the
`gs_create_pull_request` window command, which re-enters
`create_pull_request_run_async`. -/
def push_and_create_pr_do_push (pushTrace : List Effect) (pushOk : Bool)
    (env : CreatePREnv) : List Effect :=
  if pushOk then
    pushTrace ++ Effect.runWindowCommand "gs_create_pull_request" ::
      create_pull_request_run_async env
  else pushTrace

end GitSavvy

namespace GitSavvy

/-! Sample concrete inputs used by the witnesses. -/

/-- A git oracle on which every invocation succeeds. -/
def allOkEnv : GitEnv := ⟨fun _ => true, fun _ => true⟩

/-- A git oracle on which every invocation fails (in particular the fetch). -/
def fetchFailEnv : GitEnv := ⟨fun _ => false, fun _ => true⟩

/-- A git oracle on which fetches succeed and everything else fails. -/
def branchFailEnv : GitEnv :=
  ⟨fun args => args.head? == some "fetch", fun _ => true⟩

/-- The pull request of the spec's end-to-end scenario. -/
def samplePr : PullRequest :=
  ⟨42, "Add widgets",
   ⟨⟨"https://github.com/alice/widgets.git"⟩, "feature-x", "abc123deadbeef"⟩,
   "https://github.com/acme/widgets/pull/42.diff",
   "https://github.com/acme/widgets/pull/42"⟩

/-- A create-PR environment with an upstream, a resolvable remote branch and
no divergence. -/
def createEnvClean : CreatePREnv :=
  ⟨some "origin", true, some ⟨"fork", "feature-x"⟩, none,
   fun _ => ⟨"github.com", "alice", "widgets"⟩,
   ⟨"github.com", "acme", "widgets"⟩, "main"⟩

/-- Like `createEnvClean` but the active remote branch is undeterminable. -/
def createEnvNoRemote : CreatePREnv :=
  ⟨some "origin", true, none, none,
   fun _ => ⟨"github.com", "alice", "widgets"⟩,
   ⟨"github.com", "acme", "widgets"⟩, "main"⟩

/-- Like `createEnvClean` but the branch has diverged from its remote
counterpart. -/
def createEnvDiverged : CreatePREnv :=
  ⟨some "origin", true, some ⟨"fork", "feature-x"⟩,
   some "Your branch is ahead by 1.",
   fun _ => ⟨"github.com", "alice", "widgets"⟩,
   ⟨"github.com", "acme", "widgets"⟩, "main"⟩

/-- C1: materializing a pull request with intent `NewBranch n` for a
non-empty branch name `n`, with the fetch and branch git invocations
succeeding, issues exactly three git commands, in order: the fetch with the
head clone URL and head ref, the branch creation of `n` at the head SHA,
and the checkout of `n` — and no other git command. -/
theorem C1_newBranch_command_sequence (env : GitEnv) (pr : PullRequest)
    (n : String) (hn : n ≠ "") (hf : env.gitOk (fetchArgs pr) = true)
    (hb : env.gitOk (branchArgs pr n) = true) :
    gitEffects (materialize env pr (.newBranch n)).1 =
      [Effect.gitCmd (fetchArgs pr), Effect.gitCmd (branchArgs pr n),
       Effect.checkoutRef n] := by
  simp [materialize, fetch_and_checkout_pr, gitEffects, truthy, hf, hb, hn,
    isGitEffect, List.filter]

/-- Witness for C1 at the spec's end-to-end scenario: PR #42, branch name
`pull-request-42`, all git commands succeeding. -/
theorem C1_newBranch_command_sequence_witness :
    gitEffects (materialize allOkEnv samplePr (.newBranch "pull-request-42")).1 =
      [Effect.gitCmd (fetchArgs samplePr),
       Effect.gitCmd (branchArgs samplePr "pull-request-42"),
       Effect.checkoutRef "pull-request-42"] :=
  C1_newBranch_command_sequence allOkEnv samplePr "pull-request-42"
    (by decide) rfl rfl

/-- C2: a failed fetch leaves exactly the fetch invocation in the git trace
of either checkout path — no branch creation and no checkout follow; a
failed branch creation (fetch succeeded, truthy branch name) leaves exactly
the fetch and the branch invocation — no checkout follows, and the earlier
commands remain in the trace. -/
theorem C2_failed_step_aborts_later_steps (env : GitEnv) (pr : PullRequest)
    (bn : Option String) (b : String) :
    (env.gitOk (fetchArgs pr) = false →
      gitEffects (fetch_and_checkout_pr env pr bn).1 =
        [Effect.gitCmd (fetchArgs pr)] ∧
      gitEffects (create_branch_for_pr env pr b).1 =
        [Effect.gitCmd (fetchArgs pr)]) ∧
    (env.gitOk (fetchArgs pr) = true → truthy bn = true →
      env.gitOk (branchArgs pr (bn.getD "")) = false →
      gitEffects (fetch_and_checkout_pr env pr bn).1 =
        [Effect.gitCmd (fetchArgs pr),
         Effect.gitCmd (branchArgs pr (bn.getD ""))]) := by
  constructor
  · intro hf
    simp [fetch_and_checkout_pr, create_branch_for_pr, gitEffects, hf,
      isGitEffect, List.filter]
  · intro hf ht hb
    simp [fetch_and_checkout_pr, gitEffects, hf, ht, hb, isGitEffect,
      List.filter]

/-- Witness for C2: on `fetchFailEnv` only the fetch is in the git trace of
both paths; on `branchFailEnv` the trace is fetch then branch, with no
checkout. -/
theorem C2_failed_step_aborts_later_steps_witness :
    gitEffects (fetch_and_checkout_pr fetchFailEnv samplePr (some "b")).1 =
      [Effect.gitCmd (fetchArgs samplePr)] ∧
    gitEffects (create_branch_for_pr fetchFailEnv samplePr "b").1 =
      [Effect.gitCmd (fetchArgs samplePr)] ∧
    gitEffects (fetch_and_checkout_pr branchFailEnv samplePr (some "b")).1 =
      [Effect.gitCmd (fetchArgs samplePr),
       Effect.gitCmd (branchArgs samplePr "b")] :=
  ⟨((C2_failed_step_aborts_later_steps fetchFailEnv samplePr (some "b") "b").1
      rfl).1,
   ((C2_failed_step_aborts_later_steps fetchFailEnv samplePr (some "b") "b").1
      rfl).2,
   (C2_failed_step_aborts_later_steps branchFailEnv samplePr (some "b") "b").2
      rfl (by decide) rfl⟩

/-- C3: the fetch invocation occurs for every intent; `DetachedHead` never
issues a branch-creation command and (when the fetch succeeds) checks out
the head SHA directly; `NewBranchNoCheckout` never issues a checkout and
(when the fetch succeeds) issues the branch-creation command. -/
theorem C3_intent_command_shape (env : GitEnv) (pr : PullRequest)
    (n : String) :
    (∀ intent, Effect.gitCmd (fetchArgs pr) ∈ (materialize env pr intent).1) ∧
    ((materialize env pr .detachedHead).1.all
        (fun e => !(isBranchCmd e)) = true) ∧
    (env.gitOk (fetchArgs pr) = true →
      Effect.checkoutRef pr.head.sha ∈ (materialize env pr .detachedHead).1) ∧
    ((materialize env pr (.newBranchNoCheckout n)).1.all
        (fun e => !(isCheckoutEffect e)) = true) ∧
    (env.gitOk (fetchArgs pr) = true →
      Effect.gitCmd (branchArgs pr n) ∈
        (materialize env pr (.newBranchNoCheckout n)).1) := by
  refine ⟨?_, ?_, ?_, ?_, ?_⟩
  · intro intent
    cases intent <;>
      simp [materialize, fetch_and_checkout_pr, create_branch_for_pr] <;>
      rcases h : env.gitOk (fetchArgs pr) <;> simp [h] <;>
      split <;> simp
  · rcases h : env.gitOk (fetchArgs pr) <;>
      simp only [fetchArgs] at h <;>
      simp [materialize, fetch_and_checkout_pr, truthy, h, isBranchCmd,
        fetchArgs]
  · intro h
    simp [materialize, fetch_and_checkout_pr, truthy, h]
  · rcases h : env.gitOk (fetchArgs pr) <;>
      simp only [fetchArgs] at h <;>
      simp [materialize, create_branch_for_pr, h, isCheckoutEffect, fetchArgs]
  · intro h
    simp [materialize, create_branch_for_pr, h]

/-- Witness for C3 at PR #42 with every git command succeeding: the
detached-head checkout lands on the head SHA, and the no-checkout intent
issues the branch command. -/
theorem C3_intent_command_shape_witness :
    Effect.checkoutRef samplePr.head.sha ∈
      (materialize allOkEnv samplePr .detachedHead).1 ∧
    Effect.gitCmd (branchArgs samplePr "b") ∈
      (materialize allOkEnv samplePr (.newBranchNoCheckout "b")).1 :=
  ⟨(C3_intent_command_shape allOkEnv samplePr "b").2.2.1 rfl,
   (C3_intent_command_shape allOkEnv samplePr "b").2.2.2.2 rfl⟩

/-- C4: the comparison URL is the base remote URL followed by
`/compare/baseOwner:baseBranch...headOwner:headBranch?expand=1`, and at the
spec's example inputs it is exactly
`https://github.com/acme/widgets/compare/acme:main...alice:feature-x?expand=1`. -/
theorem C4_compare_url_composition :
    buildCompareUrl ⟨"github.com", "acme", "widgets"⟩ "main" "alice"
        "feature-x" =
      "https://github.com/acme/widgets/compare/acme:main...alice:feature-x?expand=1" ∧
    ∀ base bb ho hb, buildCompareUrl base bb ho hb =
      base.url ++ "/compare/" ++ base.owner ++ ":" ++ bb ++ "..." ++ ho ++
        ":" ++ hb ++ "?expand=1" :=
  ⟨rfl, fun _ _ _ _ => rfl⟩

/-- C5: the create-pull-request flow opens a comparison URL only when an
upstream is configured, the active remote branch is determinable and the
branch has not diverged; an undeterminable remote or a divergence instead
produces exactly a user-facing dialog and no URL; and when all three
conditions hold the flow is exactly the opening of the built comparison
URL. -/
theorem C5_create_pr_flow_guards (env : CreatePREnv) :
    (∀ u, Effect.openBrowser u ∈ create_pull_request_run_async env →
       truthy env.upstream = true ∧ env.activeRemoteBranch.isSome = true ∧
       truthy env.branchStatusSecondary = false) ∧
    (truthy env.upstream = true → env.activeRemoteBranch = none →
       create_pull_request_run_async env =
         [Effect.messageDialog "Unable to determine remote."]) ∧
    (∀ rb, truthy env.upstream = true → env.activeRemoteBranch = some rb →
       truthy env.branchStatusSecondary = true →
       create_pull_request_run_async env =
         [Effect.messageDialog
           ("Your current branch is different from its remote counterpart. " ++
             env.branchStatusSecondary.getD "")]) ∧
    (∀ rb, truthy env.upstream = true → env.activeRemoteBranch = some rb →
       truthy env.branchStatusSecondary = false →
       create_pull_request_run_async env =
         [Effect.openBrowser
           (buildCompareUrl env.integratedRemote env.integratedBranchName
             (env.remotes rb.remote).owner rb.name)]) := by
  refine ⟨?_, ?_, ?_, ?_⟩
  · intro u hu
    rcases hup : truthy env.upstream <;>
      rcases hrb : env.activeRemoteBranch with _ | rb <;>
      rcases hsec : truthy env.branchStatusSecondary <;>
      rcases hans : env.okCancelAnswer <;>
      simp [create_pull_request_run_async, open_comparision_in_browser,
        hup, hrb, hsec, hans] at hu <;>
      simp [hup, hrb, hsec]
  · intro hup hrb
    simp [create_pull_request_run_async, hup, hrb]
  · intro rb hup hrb hsec
    simp [create_pull_request_run_async, hup, hrb, hsec]
  · intro rb hup hrb hsec
    simp [create_pull_request_run_async, hup, hrb, hsec,
      open_comparision_in_browser]

/-- Witness for C5 at three concrete environments: the clean one opens
exactly the built URL (and satisfies the three guard conditions), the
remote-less one and the diverged one produce exactly their dialogs. -/
theorem C5_create_pr_flow_guards_witness :
    (truthy createEnvClean.upstream = true ∧
     createEnvClean.activeRemoteBranch.isSome = true ∧
     truthy createEnvClean.branchStatusSecondary = false) ∧
    create_pull_request_run_async createEnvNoRemote =
      [Effect.messageDialog "Unable to determine remote."] ∧
    create_pull_request_run_async createEnvDiverged =
      [Effect.messageDialog
        ("Your current branch is different from its remote counterpart. " ++
          "Your branch is ahead by 1.")] ∧
    create_pull_request_run_async createEnvClean =
      [Effect.openBrowser
        (buildCompareUrl ⟨"github.com", "acme", "widgets"⟩ "main" "alice"
          "feature-x")] :=
  ⟨(C5_create_pr_flow_guards createEnvClean).1
      (buildCompareUrl ⟨"github.com", "acme", "widgets"⟩ "main" "alice"
        "feature-x") (by decide),
   (C5_create_pr_flow_guards createEnvNoRemote).2.1 rfl rfl,
   (C5_create_pr_flow_guards createEnvDiverged).2.2.1 ⟨"fork", "feature-x"⟩
      rfl rfl rfl,
   (C5_create_pr_flow_guards createEnvClean).2.2.2 ⟨"fork", "feature-x"⟩
      rfl rfl rfl⟩

/-- C6: the status message `No pull requests found.` occurs in the listing
command's trace exactly when the listing succeeded with an empty sequence —
never on a fetch failure and never on a non-empty listing. -/
theorem C6_no_pull_requests_message_iff_empty
    (fetched : Except String (List PullRequest)) :
    (Effect.statusMessage "No pull requests found." ∈
        pull_request_list_run_async fetched) ↔
      fetched = Except.ok [] := by
  rcases fetched with e | prs
  · simp [pull_request_list_run_async]
  · rcases prs with _ | ⟨p, ps⟩ <;> simp [pull_request_list_run_async]

/-- C7: viewing a PR diff performs exactly one HTTP GET, against the PR's
`diff_url`, issues no git command, and (when the request succeeds and the
body is valid UTF-8) displays exactly the UTF-8 decoding of the body. -/
theorem C7_diff_view_single_get_no_git (pr : PullRequest)
    (resp : Except String (List Nat)) :
    (view_diff_for_pr pr resp).filter isHttpGet =
      [Effect.httpGet pr.diff_url] ∧
    gitEffects (view_diff_for_pr pr resp) = [] ∧
    (∀ payload text, resp = Except.ok payload →
       utf8Decode payload = some text →
       Effect.replaceViewText text ∈ view_diff_for_pr pr resp) := by
  refine ⟨?_, ?_, ?_⟩
  · rcases resp with e | payload
    · simp [view_diff_for_pr, isHttpGet, List.filter]
    · simp only [view_diff_for_pr]
      rcases h : utf8Decode payload <;> simp [h, isHttpGet, List.filter]
  · rcases resp with e | payload
    · simp [view_diff_for_pr, gitEffects, isGitEffect, List.filter]
    · simp only [view_diff_for_pr]
      rcases h : utf8Decode payload <;>
        simp [h, gitEffects, isGitEffect, List.filter]
  · intro payload text hresp hdec
    subst hresp
    simp [view_diff_for_pr, hdec]

/-- Witness for C7: the body bytes `[104, 105]` decode to `hi`, which is
displayed. -/
theorem C7_diff_view_single_get_no_git_witness :
    Effect.replaceViewText "hi" ∈
      view_diff_for_pr samplePr (Except.ok [104, 105]) :=
  (C7_diff_view_single_get_no_git samplePr (Except.ok [104, 105])).2.2
    [104, 105] "hi" rfl (by decide)

/-- C8: when the delegated push completes successfully, the method's trace
is the push trace followed by the `gs_create_pull_request` window command
and a full re-entry of the create-pull-request flow; when the push fails,
nothing follows the push trace. -/
theorem C8_push_then_reenter_create_flow (pushTrace : List Effect)
    (pushOk : Bool) (env : CreatePREnv) :
    (pushOk = true →
      push_and_create_pr_do_push pushTrace pushOk env =
        pushTrace ++ Effect.runWindowCommand "gs_create_pull_request" ::
          create_pull_request_run_async env) ∧
    (pushOk = false →
      push_and_create_pr_do_push pushTrace pushOk env = pushTrace) := by
  constructor <;> intro h <;> simp [push_and_create_pr_do_push, h]

/-- Witness for C8 at a concrete push trace and environment, in both the
successful and the failed case. -/
theorem C8_push_then_reenter_create_flow_witness :
    push_and_create_pr_do_push [Effect.gitCmd ["push", "fork", "feature-x"]]
        true createEnvClean =
      [Effect.gitCmd ["push", "fork", "feature-x"]] ++
        Effect.runWindowCommand "gs_create_pull_request" ::
          create_pull_request_run_async createEnvClean ∧
    push_and_create_pr_do_push [Effect.gitCmd ["push", "fork", "feature-x"]]
        false createEnvClean =
      [Effect.gitCmd ["push", "fork", "feature-x"]] :=
  ⟨(C8_push_then_reenter_create_flow
      [Effect.gitCmd ["push", "fork", "feature-x"]] true createEnvClean).1 rfl,
   (C8_push_then_reenter_create_flow
      [Effect.gitCmd ["push", "fork", "feature-x"]] false createEnvClean).2
     rfl⟩

/-- C9: materializing with intent `NewBranch ""` — the empty branch name an
accepted empty input panel produces — is observationally identical to
materializing with intent `DetachedHead`: the empty string is falsy, so no
branch is created and `branch_name or sha` checks out the head SHA. -/
theorem C9_empty_branch_name_is_detached_head (env : GitEnv)
    (pr : PullRequest) :
    materialize env pr (.newBranch "") = materialize env pr .detachedHead :=
  rfl

/-- C10: cancelling either selection — a falsy pull request passed to
`on_select_pr`, or index `-1` passed to `on_select_action` — produces an
empty effect trace: no git command, no HTTP request, no UI action. -/
theorem C10_cancel_selection_no_effects (env : PrCommandEnv)
    (pr : PullRequest) :
    on_select_pr none = [] ∧ on_select_action env pr (-1) = [] :=
  ⟨rfl, rfl⟩

end GitSavvy
